import Mathlib

/-!
Verification development for the dashboard analytics aggregation and
multi-agent insight-synthesis pipeline (`src/app/api/dashboard/route.ts`
plus `lib/db.js`).

The route handler `GET` collects a raw statistical snapshot from the
database (`collectRawData`), enriches it with six narrative agents
(`analyzeDataWithGeminiAgents`, each agent parsed by `runGeminiAgent`),
and assembles the HTTP response.  The SQL queries are embedded as pure
functions over explicit row lists; MySQL `NULL` is `Option`, MySQL
numerics with decimals are `ℚ`, dates are day-granular `(year, month,
day)` triples, timestamps used only for day arithmetic (`DATEDIFF`)
are day numbers (`Int`).
-/

/-- Calendar date at day granularity, standing in for MySQL DATE/DATETIME
values where the queries only compare at day precision. -/
structure MDate where
  y : Int
  m : Int
  d : Int
deriving DecidableEq

/-- MySQL comparison of two dates (lexicographic on year, month, day). -/
def mdateLe (a b : MDate) : Bool :=
  if a.y < b.y then true
  else if b.y < a.y then false
  else if a.m < b.m then true
  else if b.m < a.m then false
  else decide (a.d ≤ b.d)

/-- A row of the `users` table, restricted to the columns the embedded
queries read: `created_at`, `gender` (nullable), `age` (nullable). -/
structure UserRow where
  created_at : MDate
  gender : Option String
  age : Option Int
deriving DecidableEq

/-- A row of the `resultados_test` table, restricted to the columns the
effectiveness query reads: `usuario_id`, `fecha` (as a day number, so
that `DATEDIFF(a, b) = a - b`), `ansiedad_score` (nullable). -/
structure TestRow where
  usuario_id : Nat
  fecha : Int
  ansiedad_score : Option Int
deriving DecidableEq

/-- Result row of a `SELECT COUNT(*) as total` query. -/
structure CountRow where
  total : Int
deriving DecidableEq

/-- A name/value bucket row (anxiety, depression, gender distributions). -/
structure DataPoint where
  name : String
  value : Int
deriving DecidableEq

/-- A bucket of the age distribution. -/
structure AgeDistributionPoint where
  name : String
  count : Int
deriving DecidableEq

/-- A row of the monthly new-users series (`monthlyUsers` query). -/
structure MonthlyUserRow where
  month : String
  name : String
  usuarios : Int
deriving DecidableEq

/-- A row of the monthly test-count series (`monthlyTests` query). -/
structure MonthlyTestRow where
  month : String
  tests : Int
deriving DecidableEq

/-- A merged monthly activity entry (`combinedMonthlyData`). -/
structure MonthlyData where
  month : String
  name : String
  usuarios : Int
  tests : Int
deriving DecidableEq

/-- A weekly message-activity row. -/
structure MessageActivity where
  dia : String
  mensajes : Int
  chatbots : Int
deriving DecidableEq

/-- A correlation bucket row. -/
structure CorrelationData where
  score : String
  promedio_mensajes : Option ℚ
deriving DecidableEq

/-- The effectiveness summary row.  All three columns are aggregates that
MySQL can return as `NULL`, hence the `Option` types. -/
structure Efectividad where
  total_usuarios : Option Int
  mejoraron : Option Int
  porcentaje_mejora : Option ℚ
deriving DecidableEq

/-- The retention summary row. -/
structure Retencion where
  promedio_meses_uso : Option ℚ
  usuarios_activos_este_mes : Option Int
  usuarios_activos_mes_anterior : Option Int
  tasa_retencion : Option ℚ
deriving DecidableEq

/-- A peak-hour usage row. -/
structure PatronUso where
  hora : Int
  mensajes : Int
deriving DecidableEq

/-- A sampled free-text response row. -/
structure RespuestaExtra where
  respuestas_extra : String
deriving DecidableEq

/-- A per-chat rollup row. -/
structure ChatAnalytic where
  chat_id : Int
  chat_name : String
  user_gender : Option String
  user_age : Option Int
  message_count : Int
  max_ansiedad : Option Int
  max_depresion : Option Int
deriving DecidableEq

/-- The headline counts block of the snapshot. -/
structure UserStats where
  total : Int
  nuevos_este_mes : Int
  tests_totales : Int
  mensajes_totales : Int
deriving DecidableEq

/-- The raw snapshot assembled by `collectRawData`. -/
structure RawData where
  userStats : UserStats
  anxietyLevels : List DataPoint
  depressionLevels : List DataPoint
  ageDistribution : List AgeDistributionPoint
  genderDistribution : List DataPoint
  monthlyActivity : List MonthlyData
  messageActivity : List MessageActivity
  correlationData : List CorrelationData
  efectividad : Efectividad
  retencion : Retencion
  patronesUso : List PatronUso
  respuestasExtra : List RespuestaExtra
  chatAnalytics : List ChatAnalytic
deriving DecidableEq

/-- The floor of a rational as an integer (used to express MySQL
rounding). -/
def qfloor (q : ℚ) : Int := ⌊q⌋

/-- MySQL ROUND to one decimal place (half away from zero). -/
def mround1 (q : ℚ) : ℚ :=
  if 0 ≤ q then (qfloor (q * 10 + 1 / 2) : ℚ) / 10
  else -((qfloor (-q * 10 + 1 / 2) : ℚ) / 10)

/-- The `DATE_FORMAT(NOW() - INTERVAL 1 MONTH, '%Y-%m-01')` boundary used
by the `newUsersThisMonth` query: the first day of the month preceding
`now`'s month (subtracting one month and then forcing the day to 01). -/
def prevMonthStart (now : MDate) : MDate :=
  if now.m = 1 then ⟨now.y - 1, 12, 1⟩ else ⟨now.y, now.m - 1, 1⟩

/-- The `newUsersThisMonth` query: `SELECT COUNT(*) as total FROM users
WHERE created_at >= DATE_FORMAT(NOW() - INTERVAL 1 MONTH, '%Y-%m-01')`. -/
def newUsersThisMonthQuery (users : List UserRow) (now : MDate) : List CountRow :=
  [⟨((users.filter (fun u => mdateLe (prevMonthStart now) u.created_at)).length : Int)⟩]

/-- Modelled from the spec: the count of users whose creation timestamp
lies between the first day of the CURRENT calendar month and now, as the
spec's "new this month" sentence describes it. -/
def newUsersSpecCount (users : List UserRow) (now : MDate) : Int :=
  ((users.filter (fun u =>
    mdateLe ⟨now.y, now.m, 1⟩ u.created_at && mdateLe u.created_at now)).length : Int)

/-- The gender distribution query: `SELECT IFNULL(gender, 'No
especificado') as name, COUNT(*) as value FROM users GROUP BY gender`.
Groups are the distinct raw `gender` values (including `NULL` and the
empty string as separate groups); only `NULL` is renamed by `IFNULL`. -/
def genderDistributionQuery (users : List UserRow) : List DataPoint :=
  ((users.map (fun u => u.gender)).dedup).map fun g =>
    ⟨g.getD "No especificado", ((users.filter (fun v => v.gender == g)).length : Int)⟩

/-- The CASE expression of the age-distribution query. -/
def ageBucket (a : Int) : String :=
  if a < 18 then "Menor de 18"
  else if 18 ≤ a ∧ a ≤ 24 then "18-24"
  else if 25 ≤ a ∧ a ≤ 34 then "25-34"
  else if 35 ≤ a ∧ a ≤ 44 then "35-44"
  else if 45 ≤ a ∧ a ≤ 54 then "45-54"
  else if 55 ≤ a then "55+"
  else "No especificado"

/-- The `ORDER BY FIELD(...)` label order of the age-distribution query. -/
def ageOrder : List String :=
  ["Menor de 18", "18-24", "25-34", "35-44", "45-54", "55+", "No especificado"]

/-- The age-distribution query: bucket non-null ages by `ageBucket`
(`WHERE age IS NOT NULL`), group by bucket name, order by `FIELD`. -/
def ageDistributionQuery (users : List UserRow) : List AgeDistributionPoint :=
  let names := (users.filterMap (fun u => u.age)).map ageBucket
  ageOrder.filterMap fun nm =>
    if 0 < names.count nm then some ⟨nm, (names.count nm : Int)⟩ else none

/-- The fixed weekday translation table `diasTraducidos`. -/
def diasTraducidos : List (String × String) :=
  [("Mon", "Lun"), ("Tue", "Mar"), ("Wed", "Mié"), ("Thu", "Jue"),
   ("Fri", "Vie"), ("Sat", "Sáb"), ("Sun", "Dom")]

/-- The per-row translation `diasTraducidos[day.dia] || day.dia` (all
table values are non-empty strings, hence truthy). -/
def translateDay (d : String) : String :=
  match diasTraducidos.lookup d with
  | some t => t
  | none => d

/-- The `messageActivityTranslated` map: translate the day label, keep
every other field of the row. -/
def messageActivityTranslated (rows : List MessageActivity) : List MessageActivity :=
  rows.map fun day => { day with dia := translateDay day.dia }

/-- The `combinedMonthlyData` merge: one entry per `monthlyUsers` row,
with `tests` taken from the first `monthlyTests` row with the same month
key, defaulting to 0 when none matches. -/
def combinedMonthlyData (monthlyUsers : List MonthlyUserRow)
    (monthlyTests : List MonthlyTestRow) : List MonthlyData :=
  monthlyUsers.map fun mu =>
    match monthlyTests.find? (fun t => t.month == mu.month) with
    | some mt => ⟨mu.month, mu.name, mu.usuarios, mt.tests⟩
    | none => ⟨mu.month, mu.name, mu.usuarios, 0⟩

/-- The rows of one user in `resultados_test` (the `GROUP BY usuario_id`
group, and equally the join condition `usuario_id = u`). -/
def userTestRows (tests : List TestRow) (u : Nat) : List TestRow :=
  tests.filter (fun t => t.usuario_id == u)

/-- The distinct `usuario_id` values of `resultados_test` (the groups of
`GROUP BY usuario_id`). -/
def userIds (tests : List TestRow) : List Nat :=
  (tests.map (fun t => t.usuario_id)).dedup

/-- The `user_tests` CTE: per user, `MIN(fecha)` and `MAX(fecha)`,
keeping only users with `DATEDIFF(ultima_fecha, primera_fecha) >= 30`.
With `fecha` a day number, `DATEDIFF(a, b) = a - b`. -/
def userTestsCTE (tests : List TestRow) : List (Nat × Int × Int) :=
  (userIds tests).filterMap fun u =>
    match ((userTestRows tests u).map (fun t => t.fecha)).min?,
          ((userTestRows tests u).map (fun t => t.fecha)).max? with
    | some pf, some uf => if 30 ≤ uf - pf then some (u, pf, uf) else none
    | _, _ => none

/-- The `scores` CTE: join `user_tests` back to `resultados_test` on
`usuario_id` and `primera_fecha = fecha` (first test) and again on
`ultima_fecha = fecha` (last test), producing one
`(primer_score, ultimo_score)` pair per joined row combination. -/
def scoresJoin (tests : List TestRow) : List (Option Int × Option Int) :=
  (userTestsCTE tests).flatMap fun x =>
    ((userTestRows tests x.1).filter (fun t => t.fecha == x.2.1)).flatMap fun first_test =>
      ((userTestRows tests x.1).filter (fun t => t.fecha == x.2.2)).map fun last_test =>
        (first_test.ansiedad_score, last_test.ansiedad_score)

/-- MySQL three-valued `a < b` as used in `CASE WHEN ultimo_score <
primer_score THEN 1 ELSE 0 END`: a `NULL` comparison does not satisfy
the `WHEN`. -/
def mysqlLtOpt : Option Int → Option Int → Bool
  | some a, some b => decide (a < b)
  | _, _ => false

/-- `SUM(CASE WHEN ultimo_score < primer_score THEN 1 ELSE 0 END)` over
the `scores` rows (pairs are `(primer_score, ultimo_score)`). -/
def countImproved (s : List (Option Int × Option Int)) : Nat :=
  (s.filter (fun p => mysqlLtOpt p.2 p.1)).length

/-- The final SELECT of the effectiveness query over the `scores` CTE:
`COUNT(*)`, `SUM(CASE ...)` and `ROUND(SUM(CASE ...) / COUNT(*) * 100,
1)`.  Over an empty `scores` set, `COUNT(*)` is 0 while `SUM` is `NULL`,
and `NULL / 0` is `NULL`, so the last two columns are `NULL`. -/
def efectividadQuery (tests : List TestRow) : List Efectividad :=
  let s := scoresJoin tests
  [⟨some (s.length : Int),
    if s.length = 0 then none else some ((countImproved s : Int)),
    if s.length = 0 then none
    else some (mround1 (((countImproved s : Int) : ℚ) / ((s.length : Int) : ℚ) * 100))⟩]

/-- A row of the `user_activity` CTE of the retention query, with
`ultima_actividad` as a day number and the `TIMESTAMPDIFF(MONTH,
primera_actividad, ultima_actividad)` value precomputed as `meses`
(the CTE's joins and GREATEST only feed these two values forward). -/
structure ActivityRow where
  ultima : Int
  meses : Int
deriving DecidableEq

/-- The final SELECT of the retention query given the `user_activity`
rows and the two cutoffs `NOW() - INTERVAL 1 MONTH` (`cut1`) and
`NOW() - INTERVAL 2 MONTH` (`cut2`): `AVG` over an empty set is `NULL`,
and division by a zero prior-month count yields `NULL` (MySQL returns
`NULL` for division by zero instead of erroring). -/
def retencionQuery (activity : List ActivityRow) (cut1 cut2 : Int) : List Retencion :=
  let este := (activity.filter (fun r => decide (cut1 ≤ r.ultima))).length
  let anterior := (activity.filter (fun r => decide (cut2 ≤ r.ultima))).length
  [⟨if activity.length = 0 then none
    else some (mround1 (((activity.map (fun r => r.meses)).sum : ℚ) / (activity.length : ℚ))),
    some (este : Int),
    some (anterior : Int),
    if anterior = 0 then none
    else some (mround1 ((este : ℚ) / (anterior : ℚ) * 100))⟩]

/-- JSON whitespace (the four characters the JSON grammar allows between
tokens). -/
def isJsonWs (c : Char) : Bool :=
  c = ' ' || c = '\t' || c = '\n' || c = '\r'

/-- Skip JSON whitespace. -/
def skipWs : List Char → List Char
  | [] => []
  | c :: rest => if isJsonWs c then skipWs rest else c :: rest

/-- Decimal digit test. -/
def isDigitCh (c : Char) : Bool := '0' ≤ c && c ≤ '9'

/-- Hexadecimal digit test (for string escapes). -/
def isHexCh (c : Char) : Bool :=
  isDigitCh c || ('a' ≤ c && c ≤ 'f') || ('A' ≤ c && c ≤ 'F')

/-- Parse the optional exponent part of a JSON number, consuming nothing
when no well-formed exponent follows. -/
def parseExpPart (s : List Char) : List Char :=
  match s with
  | 'e' :: r | 'E' :: r =>
    let r2 := match r with
      | '+' :: t => t
      | '-' :: t => t
      | t => t
    match r2.span isDigitCh with
    | ([], _) => s
    | (_, rest) => rest
  | _ => s

/-- Parse the optional fraction and exponent parts of a JSON number,
consuming nothing when they are not well formed. -/
def parseFracExp (s : List Char) : List Char :=
  match s with
  | '.' :: r =>
    match r.span isDigitCh with
    | ([], _) => parseExpPart s
    | (_, rest) => parseExpPart rest
  | _ => parseExpPart s

/-- Parse a JSON number (`-? (0 | [1-9][0-9]*) frac? exp?`), returning
the remaining input, or `none` when the input does not start with a
number. -/
def parseNumber (s : List Char) : Option (List Char) :=
  let s1 := match s with
    | '-' :: r => r
    | r => r
  match s1 with
  | c :: r =>
    if c = '0' then some (parseFracExp r)
    else if isDigitCh c then some (parseFracExp (r.dropWhile isDigitCh))
    else none
  | [] => none

/-- Parse the remainder of a JSON string after the opening quote,
returning the input after the closing quote. -/
def parseStringRest : Nat → List Char → Option (List Char)
  | 0, _ => none
  | _, [] => none
  | fuel + 1, c :: r =>
    if c = '"' then some r
    else if c = '\\' then
      match r with
      | e :: r2 =>
        if e = 'u' then
          match r2 with
          | a :: b :: c2 :: d :: r3 =>
            if isHexCh a && isHexCh b && isHexCh c2 && isHexCh d then
              parseStringRest fuel r3
            else none
          | _ => none
        else if e = '"' || e = '\\' || e = '/' || e = 'b' || e = 'f' ||
                e = 'n' || e = 'r' || e = 't' then
          parseStringRest fuel r2
        else none
      | [] => none
    else if 32 ≤ c.toNat then parseStringRest fuel r
    else none

mutual

/-- Parse one JSON value starting at the given input (no leading
whitespace), returning the remaining input.  Fuel-indexed recursive
descent over the JSON grammar accepted by `JSON.parse`. -/
def parseValue : Nat → List Char → Option (List Char)
  | 0, _ => none
  | fuel + 1, s =>
    match s with
    | '\x7b' :: r =>
      match skipWs r with
      | '\x7d' :: r2 => some r2
      | r1 => parseMembers fuel r1
    | '[' :: r =>
      match skipWs r with
      | ']' :: r2 => some r2
      | r1 => parseItems fuel r1
    | '"' :: r => parseStringRest (r.length + 1) r
    | 't' :: 'r' :: 'u' :: 'e' :: rest => some rest
    | 'f' :: 'a' :: 'l' :: 's' :: 'e' :: rest => some rest
    | 'n' :: 'u' :: 'l' :: 'l' :: rest => some rest
    | s1 => parseNumber s1

/-- Parse the members of a JSON object after the opening brace and
leading whitespace, up to and including the closing brace. -/
def parseMembers : Nat → List Char → Option (List Char)
  | 0, _ => none
  | fuel + 1, s =>
    match s with
    | '"' :: r =>
      match parseStringRest (r.length + 1) r with
      | none => none
      | some r1 =>
        match skipWs r1 with
        | ':' :: r2 =>
          match parseElement fuel r2 with
          | none => none
          | some r3 =>
            match r3 with
            | ',' :: r4 => parseMembers fuel (skipWs r4)
            | '\x7d' :: r4 => some r4
            | _ => none
        | _ => none
    | _ => none

/-- Parse the items of a JSON array after the opening bracket and leading
whitespace, up to and including the closing bracket. -/
def parseItems : Nat → List Char → Option (List Char)
  | 0, _ => none
  | fuel + 1, s =>
    match parseValue fuel (skipWs s) with
    | none => none
    | some r =>
      match skipWs r with
      | ',' :: r2 => parseItems fuel r2
      | ']' :: r2 => some r2
      | _ => none

/-- Parse a JSON element: whitespace, a value, whitespace. -/
def parseElement : Nat → List Char → Option (List Char)
  | 0, _ => none
  | fuel + 1, s =>
    match parseValue fuel (skipWs s) with
    | none => none
    | some r => some (skipWs r)

end

/-- Whether `JSON.parse` accepts the text: a full parse that consumes the
entire input.  The fuel bound is generous: every recursion step consumes
at least one input character. -/
def jsonOkL (s : List Char) : Bool :=
  decide (parseElement (3 * s.length + 9) s = some [])

/-- The global replace `analysisText.replace(/三backtick json|三backtick/g, '')`:
scan left to right, removing each occurrence of a code fence, preferring
the longer `之json` alternative at each position (backtick written as
the escape `\x60`). -/
def stripCodeFences : List Char → List Char
  | '\x60' :: '\x60' :: '\x60' :: 'j' :: 's' :: 'o' :: 'n' :: rest => stripCodeFences rest
  | '\x60' :: '\x60' :: '\x60' :: rest => stripCodeFences rest
  | c :: rest => c :: stripCodeFences rest
  | [] => []

/-- JavaScript `String.prototype.trim` whitespace (the ASCII subset,
which covers every text this development evaluates). -/
def isTrimWs (c : Char) : Bool :=
  c = ' ' || c = '\t' || c = '\n' || c = '\r' || c = '\x0b' || c = '\x0c'

/-- JavaScript `.trim()`: strip whitespace from both ends. -/
def jsTrim (s : List Char) : List Char :=
  ((s.dropWhile isTrimWs).reverse.dropWhile isTrimWs).reverse

/-- The cleaned agent output: `analysisText.replace(/.../g, '').trim()`. -/
def cleanAgentText (s : List Char) : List Char := jsTrim (stripCodeFences s)

/-- The fallback extraction regex match `analysisText.match(/\x7b[\s\S]*\x7d/)`:
the substring spanning from the first opening brace to the last closing
brace (the greedy `[\s\S]*` runs to the final closing brace of the whole
text), or `none` when no closing brace follows the first opening one. -/
def extractBraces (s : List Char) : Option (List Char) :=
  match s.dropWhile (fun c => c ≠ '\x7b') with
  | [] => none
  | t =>
    match t.reverse.dropWhile (fun c => c ≠ '\x7d') with
    | [] => none
    | u => some u.reverse

/-- The output-parsing stage of `runGeminiAgent`: strip code fences and
trim; return the cleaned text if `JSON.parse` accepts it; otherwise
extract the greedy brace span and return it if `JSON.parse` accepts it;
otherwise fail (the thrown `AgentOutputError`, "no generó JSON válido",
is `none`). -/
def runGeminiAgent (analysisText : List Char) : Option (List Char) :=
  let t := cleanAgentText analysisText
  if jsonOkL t then some t
  else
    match extractBraces t with
    | some sub => if jsonOkL sub then some sub else none
    | none => none

/-- The balanced-brace span starting at the head of the input (which the
caller guarantees is an opening brace): consume until the matching
closing brace, tracking nesting depth. -/
def balancedFrom : List Char → Nat → Option (List Char)
  | [], _ => none
  | c :: r, depth =>
    if c = '\x7b' then
      match balancedFrom r (depth + 1) with
      | some v => some (c :: v)
      | none => none
    else if c = '\x7d' then
      if depth = 1 then some [c]
      else
        match balancedFrom r (depth - 1) with
        | some v => some (c :: v)
        | none => none
    else
      match balancedFrom r depth with
      | some v => some (c :: v)
      | none => none

/-- Modelled from the spec: "the first balanced braces-delimited
substring" — from the first opening brace, the span up to its matching
closing brace. -/
def firstBalancedBraces (s : List Char) : Option (List Char) :=
  match s.dropWhile (fun c => c ≠ '\x7b') with
  | [] => none
  | t => balancedFrom t 0

/-- Modelled from the spec: the agent runner as claim C2 describes it,
with the fallback extraction taking the FIRST BALANCED braces-delimited
substring instead of the source's greedy first-to-last brace span. -/
def runGeminiAgentSpec (analysisText : List Char) : Option (List Char) :=
  let t := cleanAgentText analysisText
  if jsonOkL t then some t
  else
    match firstBalancedBraces t with
    | some sub => if jsonOkL sub then some sub else none
    | none => none

/-- Whether the second (fallback) parse attempt fails on the cleaned
text: no brace span exists, or its extraction is not valid JSON. -/
def secondAttemptFails (t : List Char) : Bool :=
  match extractBraces t with
  | some sub => !jsonOkL sub
  | none => true

/-- The structured output shape of the qualitative response agent. -/
structure ResponseAnalysis where
  commonPatterns : List String
  keyInsights : List String
  recommendedActions : List String
deriving DecidableEq

/-- The effectiveness agent's structured output shape. -/
structure EffectivenessInsight where
  insight : String
  score : Int
deriving DecidableEq

/-- The merged insights object attached to the snapshot. -/
structure GeminiInsights where
  effectiveness : EffectivenessInsight
  significantPatterns : List String
  correlations : List String
  temporalTrends : List String
  recommendations : List String
  responseAnalysis : ResponseAnalysis
deriving DecidableEq

/-- The snapshot extended with the merged insights. -/
structure EnhancedData extends RawData where
  geminiInsights : GeminiInsights
deriving DecidableEq

/-- The settled outcome of each of the six agent tasks passed to
`Promise.all`: `some` a parsed value when the agent succeeded, `none`
when `runGeminiAgent` threw for that agent (parse failure or backend
error). -/
structure AgentResults where
  effectivenessAnalysis : Option EffectivenessInsight
  significantPatternsAnalysis : Option (List String)
  correlationsAnalysis : Option (List String)
  temporalTrendsAnalysis : Option (List String)
  recommendationsAnalysis : Option (List String)
  responseAnalysisResult : Option ResponseAnalysis
deriving DecidableEq

/-- The fixed fallback insights object built in the catch block of
`analyzeDataWithGeminiAgents`. -/
def fallbackInsights : GeminiInsights :=
  { effectiveness := ⟨"Error al analizar efectividad", 0⟩,
    significantPatterns := ["Error al analizar patrones"],
    correlations := ["Error al analizar correlaciones"],
    temporalTrends := ["Error al analizar tendencias"],
    recommendations := ["Error al generar recomendaciones"],
    responseAnalysis := ⟨[], ["Error al analizar respuestas"], []⟩ }

/-- Whether every one of the six agent tasks succeeded (the condition
under which `Promise.all` resolves instead of rejecting). -/
def allAgentsOk (res : AgentResults) : Bool :=
  res.effectivenessAnalysis.isSome && res.significantPatternsAnalysis.isSome &&
  res.correlationsAnalysis.isSome && res.temporalTrendsAnalysis.isSome &&
  res.recommendationsAnalysis.isSome && res.responseAnalysisResult.isSome

/-- `analyzeDataWithGeminiAgents`: run the six agents under
`Promise.all` inside a try/catch.  When all six resolve, the real parsed
outputs are merged; when any of them rejects, `Promise.all` rejects and
the catch block substitutes the whole fallback insights object.  The
function itself never throws. -/
def analyzeDataWithGeminiAgents (rawData : RawData) (res : AgentResults) : EnhancedData :=
  match res.effectivenessAnalysis, res.significantPatternsAnalysis,
        res.correlationsAnalysis, res.temporalTrendsAnalysis,
        res.recommendationsAnalysis, res.responseAnalysisResult with
  | some e, some p, some c, some t, some r, some ra =>
    { toRawData := rawData, geminiInsights := ⟨e, p, c, t, r, ra⟩ }
  | _, _, _, _, _, _ =>
    { toRawData := rawData, geminiInsights := fallbackInsights }

/-- The outcome of each `executeQuery` call issued by `collectRawData`,
in source order: either the result rows or a thrown data-access error
message. -/
structure QueryOutcomes where
  userCount : Except String (List CountRow)
  newUsersThisMonth : Except String (List CountRow)
  testCount : Except String (List CountRow)
  messageCount : Except String (List CountRow)
  anxietyLevels : Except String (List DataPoint)
  depressionLevels : Except String (List DataPoint)
  ageDistribution : Except String (List AgeDistributionPoint)
  genderDistribution : Except String (List DataPoint)
  monthlyUsers : Except String (List MonthlyUserRow)
  monthlyTests : Except String (List MonthlyTestRow)
  messageActivity : Except String (List MessageActivity)
  correlationData : Except String (List CorrelationData)
  efectividad : Except String (List Efectividad)
  retencion : Except String (List Retencion)
  patronesUso : Except String (List PatronUso)
  respuestasExtra : Except String (List RespuestaExtra)
  chatAnalytics : Except String (List ChatAnalytic)

/-- The `rows[0]?.total || 0` pattern applied to the four headline count
queries. -/
def headTotal (rows : List CountRow) : Int :=
  match rows.head? with
  | some r => r.total
  | none => 0

/-- `collectRawData`: await each query in source order (the first
rejection propagates and aborts the whole aggregation), then assemble
the snapshot: merge the monthly series, translate weekday labels, and
default `efectividad` / `retencion` only when their result sets are
empty (`rows[0] || defaultObject`). -/
def collectRawData (q : QueryOutcomes) : Except String RawData :=
  match q.userCount with
  | .error e => .error e
  | .ok userCount =>
  match q.newUsersThisMonth with
  | .error e => .error e
  | .ok newUsers =>
  match q.testCount with
  | .error e => .error e
  | .ok testCount =>
  match q.messageCount with
  | .error e => .error e
  | .ok messageCount =>
  match q.anxietyLevels with
  | .error e => .error e
  | .ok anxietyLevels =>
  match q.depressionLevels with
  | .error e => .error e
  | .ok depressionLevels =>
  match q.ageDistribution with
  | .error e => .error e
  | .ok ageDistribution =>
  match q.genderDistribution with
  | .error e => .error e
  | .ok genderDistribution =>
  match q.monthlyUsers with
  | .error e => .error e
  | .ok monthlyUsers =>
  match q.monthlyTests with
  | .error e => .error e
  | .ok monthlyTests =>
  match q.messageActivity with
  | .error e => .error e
  | .ok messageActivity =>
  match q.correlationData with
  | .error e => .error e
  | .ok correlationData =>
  match q.efectividad with
  | .error e => .error e
  | .ok efectividad =>
  match q.retencion with
  | .error e => .error e
  | .ok retencion =>
  match q.patronesUso with
  | .error e => .error e
  | .ok patronesUso =>
  match q.respuestasExtra with
  | .error e => .error e
  | .ok respuestasExtra =>
  match q.chatAnalytics with
  | .error e => .error e
  | .ok chatAnalytics =>
    .ok
      { userStats :=
          ⟨headTotal userCount, headTotal newUsers, headTotal testCount,
           headTotal messageCount⟩,
        anxietyLevels := anxietyLevels,
        depressionLevels := depressionLevels,
        ageDistribution := ageDistribution,
        genderDistribution := genderDistribution,
        monthlyActivity := combinedMonthlyData monthlyUsers monthlyTests,
        messageActivity := messageActivityTranslated messageActivity,
        correlationData := correlationData,
        efectividad := efectividad.head?.getD ⟨none, none, some 0⟩,
        retencion := retencion.head?.getD ⟨some 0, none, none, some 0⟩,
        patronesUso := patronesUso,
        respuestasExtra := respuestasExtra,
        chatAnalytics := chatAnalytics }

/-- Whether a query outcome is a thrown error. -/
def isErrB {α : Type} (e : Except String α) : Bool :=
  match e with
  | .error _ => true
  | .ok _ => false

/-- Whether a query outcome is a result. -/
def exceptOk {α : Type} (e : Except String α) : Bool :=
  match e with
  | .error _ => false
  | .ok _ => true

/-- Whether any of the seventeen extractor queries failed. -/
def anyQueryFails (q : QueryOutcomes) : Bool :=
  isErrB q.userCount || isErrB q.newUsersThisMonth || isErrB q.testCount ||
  isErrB q.messageCount || isErrB q.anxietyLevels || isErrB q.depressionLevels ||
  isErrB q.ageDistribution || isErrB q.genderDistribution || isErrB q.monthlyUsers ||
  isErrB q.monthlyTests || isErrB q.messageActivity || isErrB q.correlationData ||
  isErrB q.efectividad || isErrB q.retencion || isErrB q.patronesUso ||
  isErrB q.respuestasExtra || isErrB q.chatAnalytics

/-- The wire-level response of the route handler: HTTP status plus the
JSON body fields (`stats` and `error` model optional body fields). -/
structure DashboardResponse where
  status : Nat
  success : Bool
  stats : Option EnhancedData
  error : Option String
deriving DecidableEq

/-- The route handler `GET`: on a `collectRawData` success, enrich with
the agents and answer 200/`success:true`/`stats`; on a thrown error,
answer 500/`success:false`/`error` with the error message. -/
def GET (q : QueryOutcomes) (res : AgentResults) : DashboardResponse :=
  match collectRawData q with
  | .ok rawData => ⟨200, true, some (analyzeDataWithGeminiAgents rawData res), none⟩
  | .error e => ⟨500, false, none, some e⟩

/-- The anxiety score of the single test row a user has at date `d`
(when the per-user dates are distinct, the first_test/last_test joins
each match exactly one row; `head?` names it). -/
def firstScoreAt (tests : List TestRow) (u : Nat) (d : Int) : Option Int :=
  match ((userTestRows tests u).filter (fun t => t.fecha == d)).head? with
  | some t => t.ansiedad_score
  | none => none

/-- Whether an eligible user of the effectiveness cohort improved: the
last test's anxiety score is strictly below the first test's, under
MySQL three-valued comparison. -/
def improvedUser (tests : List TestRow) (x : Nat × Int × Int) : Bool :=
  mysqlLtOpt (firstScoreAt tests x.1 x.2.2) (firstScoreAt tests x.1 x.2.1)

/-- Whether a user's first and last test dates are at least 30 days
apart (the `HAVING DATEDIFF(...) >= 30` eligibility condition). -/
def eligibleSpan (tests : List TestRow) (u : Nat) : Bool :=
  match ((userTestRows tests u).map (fun t => t.fecha)).min?,
        ((userTestRows tests u).map (fun t => t.fecha)).max? with
  | some pf, some uf => decide (30 ≤ uf - pf)
  | _, _ => false

/-- A fixed current time used by the concrete evaluations. -/
def nowFix : MDate := ⟨2026, 10, 11⟩

/-- The query outcomes over an empty data store: every aggregate query
still returns its single row, every group-by query returns no rows. -/
def emptyOutcomes : QueryOutcomes :=
  { userCount := .ok [⟨0⟩],
    newUsersThisMonth := .ok (newUsersThisMonthQuery [] nowFix),
    testCount := .ok [⟨0⟩],
    messageCount := .ok [⟨0⟩],
    anxietyLevels := .ok [],
    depressionLevels := .ok [],
    ageDistribution := .ok (ageDistributionQuery []),
    genderDistribution := .ok (genderDistributionQuery []),
    monthlyUsers := .ok [],
    monthlyTests := .ok [],
    messageActivity := .ok [],
    correlationData := .ok [],
    efectividad := .ok (efectividadQuery []),
    retencion := .ok (retencionQuery [] 0 0),
    patronesUso := .ok [],
    respuestasExtra := .ok [],
    chatAnalytics := .ok [] }

/-- Query outcomes where the very first extractor query throws. -/
def failOutcomes : QueryOutcomes :=
  { emptyOutcomes with userCount := .error "db down" }

/-- A zero snapshot used as the raw-data argument of the orchestrator in
concrete evaluations. -/
def rawZero : RawData :=
  ⟨⟨0, 0, 0, 0⟩, [], [], [], [], [], [], [], ⟨none, none, some 0⟩,
   ⟨some 0, none, none, some 0⟩, [], [], []⟩

/-- Agent outcomes where exactly one of the six tasks (the
Recommendations agent) fails and the other five return real parsed
values. -/
def ceRes : AgentResults :=
  ⟨some ⟨"insight real", 80⟩, some ["patron real"], some ["correlacion real"],
   some ["tendencia real"], none, some ⟨["p"], ["k"], ["a"]⟩⟩

/-- Agent outcomes where all six tasks succeed. -/
def resAllOkFix : AgentResults :=
  ⟨some ⟨"i", 70⟩, some ["p1"], some ["c1"], some ["t1"], some ["r1"],
   some ⟨["x"], ["y"], ["z"]⟩⟩

/-- Agent outcomes used by the response-contract evaluations. -/
def resOkFix : AgentResults :=
  ⟨some ⟨"ok", 50⟩, some [], some [], some [], some [], some ⟨[], [], []⟩⟩

/-- A backend text on which the greedy brace span and the first balanced
brace span disagree: the strict parse fails on the leading junk, the
greedy span is the unparseable pair of objects, the balanced span is the
first (valid) object. -/
def ceText : String := "x \x7b\x7d \x7b\x7d"

/-- A backend text with no structured payload at all. -/
def wText : String := "plain text with no payload"

/-- Scenario B's data store: one user with two tests 40 days apart and a
decreasing anxiety score. -/
def scenarioBTests : List TestRow := [⟨1, 0, some 10⟩, ⟨1, 40, some 5⟩]

/-- A user store with one null-gender and one specified-gender row. -/
def genderWitnessUsers : List UserRow :=
  [⟨⟨2026, 1, 1⟩, none, none⟩, ⟨⟨2026, 1, 2⟩, some "F", none⟩]

/-- A user store whose single row has an empty-string gender. -/
def emptyGenderUsers : List UserRow := [⟨⟨2026, 1, 1⟩, some "", none⟩]

/-- A user store with one 30-year-old user. -/
def ageWitnessUsers : List UserRow := [⟨⟨2026, 1, 1⟩, none, some 30⟩]

/-- A concrete monthly new-users series. -/
def wMus : List MonthlyUserRow := [⟨"2026-01", "Jan", 2⟩, ⟨"2026-02", "Feb", 3⟩]

/-- A concrete monthly test-count series with a test-only month. -/
def wMts : List MonthlyTestRow := [⟨"2026-02", 7⟩, ⟨"2026-03", 9⟩]

/-- The user row behind claim C4's failing input: created on
2026-09-15, checked at a current time of 2026-10-11. -/
def c4Users : List UserRow := [⟨⟨2026, 9, 15⟩, none, none⟩]

/-- Concrete weekly rows with one mapped and one unmapped day label. -/
def wDays : List MessageActivity := [⟨"Mon", 3, 1⟩, ⟨"Xyz", 2, 0⟩]

/-- A flat map whose per-element lists are all singletons is a map. -/
theorem flatMap_singleton_eq_map {α β : Type} (l : List α) (f : α → List β) (g : α → β)
    (h : ∀ x ∈ l, f x = [g x]) : l.flatMap f = l.map g := by
  induction l with
  | nil => rfl
  | cons a t ih =>
    simp only [List.flatMap_cons, List.map_cons]
    rw [h a (by simp), ih (fun x hx => h x (by simp [hx]))]
    rfl

/-- Filtering the image of a map has the length of filtering the
composed predicate. -/
theorem length_filter_map_eq {α β : Type} (g : α → β) (p : β → Bool) (l : List α) :
    ((l.map g).filter p).length = (l.filter (fun a => p (g a))).length := by
  induction l with
  | nil => rfl
  | cons a t ih =>
    simp only [List.map_cons, List.filter_cons]
    cases p (g a) <;> simp [ih]

/-- Claim C4: the code's "new this month" count uses the first day of
the PREVIOUS calendar month as its boundary, so a user created on
2026-09-15 is counted at a current time of 2026-10-11, while the claim's
current-calendar-month reading counts nobody. -/
theorem new_users_prev_month_boundary :
    newUsersThisMonthQuery c4Users nowFix = [⟨1⟩] ∧
    newUsersSpecCount c4Users nowFix = 0 ∧
    prevMonthStart nowFix = ⟨2026, 9, 1⟩ := by decide

/-- Claim C5 counterexample: a store whose only user has the empty
string as gender produces the raw empty-string label, not the
"No especificado" substitute (IFNULL only replaces NULL). -/
theorem gender_empty_string_not_unspecified :
    genderDistributionQuery emptyGenderUsers = [⟨"", 1⟩] ∧
    ("" : String) ≠ "No especificado" := by decide

/-- Claim C5 (amended): null-gender rows are counted under the
"No especificado" label, while every non-null gender value — including
the empty string — is grouped under its raw value. -/
theorem gender_grouping_amended (users : List UserRow) :
    (∀ u ∈ users, u.gender = none →
      (⟨"No especificado", ((users.filter (fun v => v.gender == none)).length : Int)⟩ :
        DataPoint) ∈ genderDistributionQuery users) ∧
    (∀ u ∈ users, ∀ s : String, u.gender = some s →
      (⟨s, ((users.filter (fun v => v.gender == some s)).length : Int)⟩ :
        DataPoint) ∈ genderDistributionQuery users) := by
  constructor
  · intro u hu hg
    unfold genderDistributionQuery
    refine List.mem_map.mpr ⟨none, ?_, rfl⟩
    exact List.mem_dedup.mpr (List.mem_map.mpr ⟨u, hu, hg⟩)
  · intro u hu s hg
    unfold genderDistributionQuery
    refine List.mem_map.mpr ⟨some s, ?_, rfl⟩
    exact List.mem_dedup.mpr (List.mem_map.mpr ⟨u, hu, hg⟩)

/-- Witness for the amended claim C5 at a concrete store with one
null-gender row and one "F" row. -/
theorem gender_grouping_amended_witness :
    (⟨"No especificado", 1⟩ : DataPoint) ∈ genderDistributionQuery genderWitnessUsers ∧
    (⟨"F", 1⟩ : DataPoint) ∈ genderDistributionQuery genderWitnessUsers := by
  constructor
  · exact (gender_grouping_amended genderWitnessUsers).1 ⟨⟨2026, 1, 1⟩, none, none⟩
      (by decide) rfl
  · exact (gender_grouping_amended genderWitnessUsers).2 ⟨⟨2026, 1, 2⟩, some "F", none⟩
      (by decide) "F" rfl

/-- Every integer age falls into one of the six specified buckets. -/
theorem ageBucket_mem_specified (a : Int) :
    ageBucket a ∈ ["Menor de 18", "18-24", "25-34", "35-44", "45-54", "55+"] := by
  unfold ageBucket
  split_ifs <;> first | decide | (exfalso; omega)

/-- Claim C10: because rows with null age are filtered out before
bucketing, every entry of the assembled age distribution carries one of
the six specified range labels — the "No especificado" bucket is never
produced. -/
theorem age_distribution_no_unspecified (users : List UserRow)
    (p : AgeDistributionPoint) (hp : p ∈ ageDistributionQuery users) :
    p.name ∈ ["Menor de 18", "18-24", "25-34", "35-44", "45-54", "55+"] := by
  unfold ageDistributionQuery at hp
  rw [List.mem_filterMap] at hp
  obtain ⟨nm, hnm, hif⟩ := hp
  by_cases hpos :
      0 < (((users.filterMap (fun u => u.age)).map ageBucket).count nm)
  · rw [if_pos hpos] at hif
    have hpn : p.name = nm := by
      cases hif
      rfl
    have hmem : nm ∈ (users.filterMap (fun u => u.age)).map ageBucket :=
      List.count_pos_iff.mp hpos
    obtain ⟨a, -, rfl⟩ := List.mem_map.mp hmem
    rw [hpn]
    exact ageBucket_mem_specified a
  · rw [if_neg hpos] at hif
    exact absurd hif (by simp)

/-- Witness for claim C10 at a store with one 30-year-old user. -/
theorem age_distribution_no_unspecified_witness :
    (⟨"25-34", 1⟩ : AgeDistributionPoint) ∈ ageDistributionQuery ageWitnessUsers ∧
    (⟨"25-34", 1⟩ : AgeDistributionPoint).name ∈
      ["Menor de 18", "18-24", "25-34", "35-44", "45-54", "55+"] :=
  ⟨by decide, age_distribution_no_unspecified ageWitnessUsers ⟨"25-34", 1⟩ (by decide)⟩

/-- Claim C9: the translation step maps each row to the same row with
only the day label translated; the seven-entry table is exactly
Mon→Lun, Tue→Mar, Wed→Mié, Thu→Jue, Fri→Vie, Sat→Sáb, Sun→Dom; any
label outside the table passes through unchanged. -/
theorem weekday_translation_exact (rows : List MessageActivity) :
    messageActivityTranslated rows =
      rows.map (fun r => ⟨translateDay r.dia, r.mensajes, r.chatbots⟩) ∧
    translateDay "Mon" = "Lun" ∧ translateDay "Tue" = "Mar" ∧
    translateDay "Wed" = "Mié" ∧ translateDay "Thu" = "Jue" ∧
    translateDay "Fri" = "Vie" ∧ translateDay "Sat" = "Sáb" ∧
    translateDay "Sun" = "Dom" ∧
    ∀ d : String, d ∉ ["Mon", "Tue", "Wed", "Thu", "Fri", "Sat", "Sun"] →
      translateDay d = d := by
  refine ⟨rfl, by decide, by decide, by decide, by decide, by decide, by decide,
    by decide, ?_⟩
  intro d hd
  simp only [List.mem_cons, List.not_mem_nil, or_false, not_or] at hd
  obtain ⟨h1, h2, h3, h4, h5, h6, h7⟩ := hd
  have e1 : (d == "Mon") = false := beq_eq_false_iff_ne.mpr h1
  have e2 : (d == "Tue") = false := beq_eq_false_iff_ne.mpr h2
  have e3 : (d == "Wed") = false := beq_eq_false_iff_ne.mpr h3
  have e4 : (d == "Thu") = false := beq_eq_false_iff_ne.mpr h4
  have e5 : (d == "Fri") = false := beq_eq_false_iff_ne.mpr h5
  have e6 : (d == "Sat") = false := beq_eq_false_iff_ne.mpr h6
  have e7 : (d == "Sun") = false := beq_eq_false_iff_ne.mpr h7
  simp [translateDay, diasTraducidos, List.lookup, e1, e2, e3, e4, e5, e6, e7]

/-- Witness for claim C9 at concrete rows with a mapped and an unmapped
label. -/
theorem weekday_translation_exact_witness :
    translateDay "Xyz" = "Xyz" ∧
    messageActivityTranslated wDays = [⟨"Lun", 3, 1⟩, ⟨"Xyz", 2, 0⟩] :=
  ⟨(weekday_translation_exact wDays).2.2.2.2.2.2.2.2 "Xyz" (by decide), by decide⟩

/-- The merged monthly list carries exactly the months of the new-users
series, in order. -/
theorem combined_months (mus : List MonthlyUserRow) (mts : List MonthlyTestRow) :
    (combinedMonthlyData mus mts).map (fun e => e.month) =
      mus.map (fun r => r.month) := by
  induction mus with
  | nil => rfl
  | cons mu t ih =>
    simp only [combinedMonthlyData, List.map_cons] at ih ⊢
    cases hf : mts.find? (fun x => x.month == mu.month) <;> simp [hf, ih]

/-- Claim C6: the merged monthly-activity list has one entry per
new-users row (same months, same order), each entry's tests field is the
matching test row's count or 0 when none matches, a month absent from
the new-users series is absent from the merge, and under the grouped
queries' distinct month keys each user-series month appears exactly
once. -/
theorem monthly_join_user_authoritative (mus : List MonthlyUserRow)
    (mts : List MonthlyTestRow) (h : (mus.map (fun r => r.month)).Nodup) :
    ((combinedMonthlyData mus mts).map (fun e => e.month) =
      mus.map (fun r => r.month)) ∧
    (∀ mu ∈ mus,
      (∀ mt, mts.find? (fun x => x.month == mu.month) = some mt →
        (⟨mu.month, mu.name, mu.usuarios, mt.tests⟩ : MonthlyData) ∈
          combinedMonthlyData mus mts) ∧
      (mts.find? (fun x => x.month == mu.month) = none →
        (⟨mu.month, mu.name, mu.usuarios, 0⟩ : MonthlyData) ∈
          combinedMonthlyData mus mts)) ∧
    (∀ m : String, m ∉ mus.map (fun r => r.month) →
      m ∉ (combinedMonthlyData mus mts).map (fun e => e.month)) ∧
    (∀ m ∈ mus.map (fun r => r.month),
      ((combinedMonthlyData mus mts).map (fun e => e.month)).count m = 1) := by
  refine ⟨combined_months mus mts, ?_, ?_, ?_⟩
  · intro mu hmu
    constructor
    · intro mt hmt
      unfold combinedMonthlyData
      refine List.mem_map.mpr ⟨mu, hmu, ?_⟩
      rw [hmt]
    · intro hn
      unfold combinedMonthlyData
      refine List.mem_map.mpr ⟨mu, hmu, ?_⟩
      rw [hn]
  · intro m hm
    rw [combined_months mus mts]
    exact hm
  · intro m hm
    rw [combined_months mus mts]
    exact List.count_eq_one_of_mem h hm

/-- Witness for claim C6 at concrete series where "2026-01" has no test
row and "2026-03" appears only in the test series. -/
theorem monthly_join_user_authoritative_witness :
    ((combinedMonthlyData wMus wMts).map (fun e => e.month) =
      wMus.map (fun r => r.month)) ∧
    (⟨"2026-01", "Jan", 2, 0⟩ : MonthlyData) ∈ combinedMonthlyData wMus wMts ∧
    "2026-03" ∉ (combinedMonthlyData wMus wMts).map (fun e => e.month) :=
  ⟨(monthly_join_user_authoritative wMus wMts (by decide)).1,
   ((monthly_join_user_authoritative wMus wMts (by decide)).2.1
      ⟨"2026-01", "Jan", 2⟩ (by decide)).2 (by decide),
   (monthly_join_user_authoritative wMus wMts (by decide)).2.2.1
      "2026-03" (by decide)⟩

/-- Claim C2 counterexample: on the text "x ⦃⦄ ⦃⦄" (with literal braces)
the strict parse fails, the source's greedy first-to-last brace span
"⦃⦄ ⦃⦄" is not valid JSON so the agent signals the error, while the
first BALANCED braces-delimited substring "⦃⦄" of the claim's reading is
valid JSON, so under the claim no error would be signalled. -/
theorem agent_parse_balanced_vs_greedy :
    runGeminiAgent ceText.toList = none ∧
    runGeminiAgentSpec ceText.toList = some ("\x7b\x7d".toList) ∧
    extractBraces (cleanAgentText ceText.toList) = some ("\x7b\x7d \x7b\x7d".toList) ∧
    firstBalancedBraces (cleanAgentText ceText.toList) = some ("\x7b\x7d".toList) := by
  decide

/-- Claim C2 (amended): the agent runner strips code fences and trims,
then accepts the whole cleaned text when it parses as JSON; otherwise it
extracts the greedy span from the first opening brace to the last
closing brace and accepts it when that parses as JSON; it signals
`AgentOutputError` if and only if both attempts fail. -/
theorem agent_parse_error_iff (text : List Char) :
    (runGeminiAgent text = none ↔
      (jsonOkL (cleanAgentText text) = false ∧
        secondAttemptFails (cleanAgentText text) = true)) ∧
    (jsonOkL (cleanAgentText text) = true →
      runGeminiAgent text = some (cleanAgentText text)) ∧
    (∀ sub : List Char, jsonOkL (cleanAgentText text) = false →
      extractBraces (cleanAgentText text) = some sub → jsonOkL sub = true →
      runGeminiAgent text = some sub) := by
  cases hj : jsonOkL (cleanAgentText text) with
  | true => simp [runGeminiAgent, secondAttemptFails, hj]
  | false =>
    cases hx : extractBraces (cleanAgentText text) with
    | none => simp [runGeminiAgent, secondAttemptFails, hj, hx]
    | some sub =>
      cases hj2 : jsonOkL sub with
      | true => simp [runGeminiAgent, secondAttemptFails, hj, hx, hj2]
      | false => simp [runGeminiAgent, secondAttemptFails, hj, hx, hj2]

/-- `collectRawData` succeeds exactly when none of the seventeen
extractor queries failed (the first failing await propagates). -/
theorem collect_ok_iff_bool (q : QueryOutcomes) :
    exceptOk (collectRawData q) = !anyQueryFails q := by
  rcases h1 : q.userCount with e | v1
  · simp [collectRawData, anyQueryFails, isErrB, exceptOk, h1]
  rcases h2 : q.newUsersThisMonth with e | v2
  · simp [collectRawData, anyQueryFails, isErrB, exceptOk, h1, h2]
  rcases h3 : q.testCount with e | v3
  · simp [collectRawData, anyQueryFails, isErrB, exceptOk, h1, h2, h3]
  rcases h4 : q.messageCount with e | v4
  · simp [collectRawData, anyQueryFails, isErrB, exceptOk, h1, h2, h3, h4]
  rcases h5 : q.anxietyLevels with e | v5
  · simp [collectRawData, anyQueryFails, isErrB, exceptOk, h1, h2, h3, h4, h5]
  rcases h6 : q.depressionLevels with e | v6
  · simp [collectRawData, anyQueryFails, isErrB, exceptOk, h1, h2, h3, h4, h5, h6]
  rcases h7 : q.ageDistribution with e | v7
  · simp [collectRawData, anyQueryFails, isErrB, exceptOk, h1, h2, h3, h4, h5, h6, h7]
  rcases h8 : q.genderDistribution with e | v8
  · simp [collectRawData, anyQueryFails, isErrB, exceptOk, h1, h2, h3, h4, h5, h6, h7,
      h8]
  rcases h9 : q.monthlyUsers with e | v9
  · simp [collectRawData, anyQueryFails, isErrB, exceptOk, h1, h2, h3, h4, h5, h6, h7,
      h8, h9]
  rcases h10 : q.monthlyTests with e | v10
  · simp [collectRawData, anyQueryFails, isErrB, exceptOk, h1, h2, h3, h4, h5, h6, h7,
      h8, h9, h10]
  rcases h11 : q.messageActivity with e | v11
  · simp [collectRawData, anyQueryFails, isErrB, exceptOk, h1, h2, h3, h4, h5, h6, h7,
      h8, h9, h10, h11]
  rcases h12 : q.correlationData with e | v12
  · simp [collectRawData, anyQueryFails, isErrB, exceptOk, h1, h2, h3, h4, h5, h6, h7,
      h8, h9, h10, h11, h12]
  rcases h13 : q.efectividad with e | v13
  · simp [collectRawData, anyQueryFails, isErrB, exceptOk, h1, h2, h3, h4, h5, h6, h7,
      h8, h9, h10, h11, h12, h13]
  rcases h14 : q.retencion with e | v14
  · simp [collectRawData, anyQueryFails, isErrB, exceptOk, h1, h2, h3, h4, h5, h6, h7,
      h8, h9, h10, h11, h12, h13, h14]
  rcases h15 : q.patronesUso with e | v15
  · simp [collectRawData, anyQueryFails, isErrB, exceptOk, h1, h2, h3, h4, h5, h6, h7,
      h8, h9, h10, h11, h12, h13, h14, h15]
  rcases h16 : q.respuestasExtra with e | v16
  · simp [collectRawData, anyQueryFails, isErrB, exceptOk, h1, h2, h3, h4, h5, h6, h7,
      h8, h9, h10, h11, h12, h13, h14, h15, h16]
  rcases h17 : q.chatAnalytics with e | v17
  · simp [collectRawData, anyQueryFails, isErrB, exceptOk, h1, h2, h3, h4, h5, h6, h7,
      h8, h9, h10, h11, h12, h13, h14, h15, h16, h17]
  simp [collectRawData, anyQueryFails, isErrB, exceptOk, h1, h2, h3, h4, h5, h6, h7,
    h8, h9, h10, h11, h12, h13, h14, h15, h16, h17]

/-- Witness for the amended claim C2: a text with no structured payload
fails both attempts and signals the error. -/
theorem agent_parse_error_iff_witness :
    runGeminiAgent wText.toList = none :=
  (agent_parse_error_iff wText.toList).1.mpr ⟨by decide, by decide⟩

/-- Claim C1 counterexample: with exactly one failed agent task (the
Recommendations agent) and five real parsed outputs, the pipeline's
`Promise.all` rejects and the whole fallback object is substituted, so
the Significant-Patterns field carries its fallback value instead of the
agent's real parsed output. -/
theorem orchestrator_single_failure_not_isolated :
    ceRes.recommendationsAnalysis = none ∧
    ceRes.effectivenessAnalysis.isSome = true ∧
    ceRes.significantPatternsAnalysis = some ["patron real"] ∧
    ceRes.correlationsAnalysis.isSome = true ∧
    ceRes.temporalTrendsAnalysis.isSome = true ∧
    ceRes.responseAnalysisResult.isSome = true ∧
    (analyzeDataWithGeminiAgents rawZero ceRes).geminiInsights.significantPatterns =
      ["Error al analizar patrones"] ∧
    (analyzeDataWithGeminiAgents rawZero ceRes).geminiInsights.significantPatterns ≠
      ["patron real"] := by decide

/-- Claim C1 (amended): when all six agent tasks succeed the bundle
carries the six real parsed outputs; when one or more fail, ALL six
fields are replaced by the fixed fallback object; in either case a
request whose extractor queries succeeded still reports success:true
with status 200. -/
theorem orchestrator_all_or_nothing (rawData : RawData) (res : AgentResults) :
    (allAgentsOk res = true →
      some (analyzeDataWithGeminiAgents rawData res).geminiInsights.effectiveness =
        res.effectivenessAnalysis ∧
      some (analyzeDataWithGeminiAgents rawData res).geminiInsights.significantPatterns =
        res.significantPatternsAnalysis ∧
      some (analyzeDataWithGeminiAgents rawData res).geminiInsights.correlations =
        res.correlationsAnalysis ∧
      some (analyzeDataWithGeminiAgents rawData res).geminiInsights.temporalTrends =
        res.temporalTrendsAnalysis ∧
      some (analyzeDataWithGeminiAgents rawData res).geminiInsights.recommendations =
        res.recommendationsAnalysis ∧
      some (analyzeDataWithGeminiAgents rawData res).geminiInsights.responseAnalysis =
        res.responseAnalysisResult) ∧
    (allAgentsOk res = false →
      (analyzeDataWithGeminiAgents rawData res).geminiInsights = fallbackInsights) ∧
    (∀ q : QueryOutcomes, anyQueryFails q = false →
      (GET q res).success = true ∧ (GET q res).status = 200) := by
  refine ⟨?_, ?_, ?_⟩
  · intro hok
    rcases res with ⟨o1, o2, o3, o4, o5, o6⟩
    rcases o1 with _ | e1 <;> rcases o2 with _ | p1 <;> rcases o3 with _ | c1 <;>
      rcases o4 with _ | t1 <;> rcases o5 with _ | r1 <;> rcases o6 with _ | a1 <;>
      simp_all [allAgentsOk, analyzeDataWithGeminiAgents]
  · intro hbad
    rcases res with ⟨o1, o2, o3, o4, o5, o6⟩
    rcases o1 with _ | e1 <;> rcases o2 with _ | p1 <;> rcases o3 with _ | c1 <;>
      rcases o4 with _ | t1 <;> rcases o5 with _ | r1 <;> rcases o6 with _ | a1 <;>
      simp_all [allAgentsOk, analyzeDataWithGeminiAgents]
  · intro q hq
    have hb := collect_ok_iff_bool q
    rcases hc : collectRawData q with e | r
    · rw [hc] at hb
      rw [hq] at hb
      simp [exceptOk] at hb
    · simp [GET, hc]

/-- Witness for the amended claim C1: with all six agents succeeding the
patterns field is the real output; with the Recommendations agent
failing the whole insights object is the fallback. -/
theorem orchestrator_all_or_nothing_witness :
    some (analyzeDataWithGeminiAgents rawZero resAllOkFix).geminiInsights.significantPatterns =
      resAllOkFix.significantPatternsAnalysis ∧
    (analyzeDataWithGeminiAgents rawZero ceRes).geminiInsights = fallbackInsights :=
  ⟨((orchestrator_all_or_nothing rawZero resAllOkFix).1 (by decide)).2.1,
   (orchestrator_all_or_nothing rawZero ceRes).2.1 (by decide)⟩

/-- Claim C3 counterexample: over an empty data store the aggregation
succeeds, but the assembled effectiveness row's improvement percentage
is null (the aggregate query still returns one row, whose
`porcentaje_mejora` is SQL NULL, so the `|| ⦃porcentaje_mejora: 0⦄`
default never applies), not the claimed defined default 0; the
retention rate is likewise null. -/
theorem efectividad_empty_cohort_null :
    (collectRawData emptyOutcomes).toOption.map
        (fun r => (r.efectividad.porcentaje_mejora, r.retencion.tasa_retencion)) =
      some (none, none) ∧
    (collectRawData emptyOutcomes).toOption.map
        (fun r => r.efectividad.porcentaje_mejora) ≠ some (some 0) := by decide

/-- Claim C3 (amended): with an empty effectiveness cohort the query
returns one row with total 0 and null improved count and percentage; a
zero prior-month active count makes the retention rate null; neither
case surfaces a division-by-zero error. -/
theorem division_by_zero_defaults :
    (∀ tests : List TestRow, scoresJoin tests = [] →
      efectividadQuery tests = [⟨some 0, none, none⟩]) ∧
    (∀ (activity : List ActivityRow) (cut1 cut2 : Int),
      (activity.filter (fun r => decide (cut2 ≤ r.ultima))).length = 0 →
      (retencionQuery activity cut1 cut2).map
        (fun r => (r.usuarios_activos_mes_anterior, r.tasa_retencion)) =
        [(some 0, none)]) := by
  constructor
  · intro tests h
    simp [efectividadQuery, h]
  · intro activity cut1 cut2 h
    simp [retencionQuery, h]

/-- Witness for the amended claim C3 at the empty store. -/
theorem division_by_zero_defaults_witness :
    efectividadQuery [] = [⟨some 0, none, none⟩] ∧
    (retencionQuery [] 0 0).map
        (fun r => (r.usuarios_activos_mes_anterior, r.tasa_retencion)) =
      [(some 0, none)] :=
  ⟨division_by_zero_defaults.1 [] (by decide),
   division_by_zero_defaults.2 [] 0 0 (by decide)⟩

/-- Claim C8: a failed extractor query makes the whole request answer
HTTP 500 with success:false and the error message and no stats; when all
extractor queries succeed the request answers HTTP 200 with success:true
and stats; stats is present if and only if success is true, and error is
present if and only if success is false. -/
theorem get_response_contract (q : QueryOutcomes) (res : AgentResults) :
    (anyQueryFails q = true →
      (GET q res).status = 500 ∧ (GET q res).success = false ∧
      (GET q res).stats = none ∧ (GET q res).error ≠ none) ∧
    (anyQueryFails q = false →
      (GET q res).status = 200 ∧ (GET q res).success = true ∧
      (GET q res).stats ≠ none ∧ (GET q res).error = none) ∧
    ((GET q res).stats ≠ none ↔ (GET q res).success = true) ∧
    ((GET q res).error ≠ none ↔ (GET q res).success = false) ∧
    (∀ e : String, collectRawData q = .error e → (GET q res).error = some e) := by
  have hb := collect_ok_iff_bool q
  rcases hc : collectRawData q with e | r
  · rw [hc] at hb
    have hfail : anyQueryFails q = true := by
      cases hA : anyQueryFails q
      · rw [hA] at hb
        simp [exceptOk] at hb
      · rfl
    have hG : GET q res = ⟨500, false, none, some e⟩ := by simp [GET, hc]
    rw [hG]
    refine ⟨fun _ => ⟨rfl, rfl, rfl, by simp⟩, ?_, by simp, by simp, ?_⟩
    · intro hno
      rw [hno] at hfail
      exact absurd hfail (by simp)
    · intro e' he'
      injection he' with h
      rw [h]
  · rw [hc] at hb
    have hok : anyQueryFails q = false := by
      cases hA : anyQueryFails q
      · rfl
      · rw [hA] at hb
        simp [exceptOk] at hb
    have hG : GET q res = ⟨200, true, some (analyzeDataWithGeminiAgents r res), none⟩ := by
      simp [GET, hc]
    rw [hG]
    refine ⟨?_, fun _ => ⟨rfl, rfl, by simp, rfl⟩, by simp, by simp, ?_⟩
    · intro hyes
      rw [hyes] at hok
      exact absurd hok (by simp)
    · intro e' he'
      exact absurd he' (by simp)

/-- Witness for claim C8: a failing first query answers 500 with no
stats, the empty-store outcomes answer 200 with stats. -/
theorem get_response_contract_witness :
    ((GET failOutcomes resOkFix).status = 500 ∧ (GET failOutcomes resOkFix).success = false ∧
     (GET failOutcomes resOkFix).stats = none ∧ (GET failOutcomes resOkFix).error ≠ none) ∧
    ((GET emptyOutcomes resOkFix).status = 200 ∧ (GET emptyOutcomes resOkFix).success = true ∧
     (GET emptyOutcomes resOkFix).stats ≠ none ∧ (GET emptyOutcomes resOkFix).error = none) :=
  ⟨(get_response_contract failOutcomes resOkFix).1 (by decide),
   (get_response_contract emptyOutcomes resOkFix).2.1 (by decide)⟩

/-- In a row list whose dates are distinct, filtering on one present
date yields exactly one row. -/
theorem filter_nodup_fecha_singleton (l : List TestRow) (d : Int)
    (hnd : (l.map (fun t => t.fecha)).Nodup)
    (hm : d ∈ l.map (fun t => t.fecha)) :
    ∃ t, l.filter (fun t => t.fecha == d) = [t] ∧ t.fecha = d := by
  induction l with
  | nil => simp at hm
  | cons a t ih =>
    simp only [List.map_cons, List.nodup_cons] at hnd
    simp only [List.map_cons, List.mem_cons] at hm
    rcases hm with hm | hm
    · refine ⟨a, ?_, hm.symm⟩
      have ha : (a.fecha == d) = true := by simp [hm]
      simp only [List.filter_cons, ha]
      have : t.filter (fun x => x.fecha == d) = [] := by
        rw [List.filter_eq_nil_iff]
        intro x hx hxd
        apply hnd.1
        rw [beq_iff_eq] at hxd
        rw [← hm, ← hxd]
        exact List.mem_map.mpr ⟨x, hx, rfl⟩
      rw [this]
      simp
    · have hne : (a.fecha == d) = false := by
        rw [beq_eq_false_iff_ne]
        intro had
        apply hnd.1
        rw [had]
        exact hm
      simp only [List.filter_cons, hne]
      exact ih hnd.2 hm

/-- Membership in the `user_tests` CTE decomposes into the grouped
user, its attained min and max dates, and the 30-day span condition. -/
theorem mem_userTestsCTE (tests : List TestRow) (x : Nat × Int × Int)
    (hx : x ∈ userTestsCTE tests) :
    x.1 ∈ userIds tests ∧
    ((userTestRows tests x.1).map (fun t => t.fecha)).min? = some x.2.1 ∧
    ((userTestRows tests x.1).map (fun t => t.fecha)).max? = some x.2.2 ∧
    30 ≤ x.2.2 - x.2.1 := by
  unfold userTestsCTE at hx
  rw [List.mem_filterMap] at hx
  obtain ⟨u, hu, hf⟩ := hx
  rcases hmin : ((userTestRows tests u).map (fun t => t.fecha)).min? with _ | pf
  · rw [hmin] at hf
    simp at hf
  rcases hmax : ((userTestRows tests u).map (fun t => t.fecha)).max? with _ | uf
  · rw [hmin, hmax] at hf
    simp at hf
  rw [hmin, hmax] at hf
  by_cases h30 : 30 ≤ uf - pf
  · simp only [h30, if_true] at hf
    injection hf with h
    subst h
    exact ⟨hu, hmin, hmax, h30⟩
  · simp [h30] at hf

/-- For a CTE member, the double join against the user's unique
first-date and last-date rows produces exactly the one score pair named
by `firstScoreAt`. -/
theorem scores_inner_singleton (tests : List TestRow)
    (hnd : ∀ u ∈ userIds tests, ((userTestRows tests u).map (fun t => t.fecha)).Nodup)
    (x : Nat × Int × Int) (hx : x ∈ userTestsCTE tests) :
    (((userTestRows tests x.1).filter (fun t => t.fecha == x.2.1)).flatMap fun first_test =>
      ((userTestRows tests x.1).filter (fun t => t.fecha == x.2.2)).map fun last_test =>
        (first_test.ansiedad_score, last_test.ansiedad_score)) =
    [(firstScoreAt tests x.1 x.2.1, firstScoreAt tests x.1 x.2.2)] := by
  obtain ⟨hu, hmin, hmax, -⟩ := mem_userTestsCTE tests x hx
  have hnd' := hnd x.1 hu
  have hmem1 : x.2.1 ∈ (userTestRows tests x.1).map (fun t => t.fecha) :=
    List.min?_mem (fun a b => min_choice a b) hmin
  have hmem2 : x.2.2 ∈ (userTestRows tests x.1).map (fun t => t.fecha) :=
    List.max?_mem (fun a b => max_choice a b) hmax
  obtain ⟨t1, ht1, -⟩ := filter_nodup_fecha_singleton _ _ hnd' hmem1
  obtain ⟨t2, ht2, -⟩ := filter_nodup_fecha_singleton _ _ hnd' hmem2
  rw [ht1, ht2]
  simp [firstScoreAt, ht1, ht2]

/-- Under per-user distinct test dates, the `scores` CTE has exactly one
row per eligible user, pairing that user's unique first and last
scores. -/
theorem scoresJoin_eq_map (tests : List TestRow)
    (hnd : ∀ u ∈ userIds tests, ((userTestRows tests u).map (fun t => t.fecha)).Nodup) :
    scoresJoin tests = (userTestsCTE tests).map
      (fun x => (firstScoreAt tests x.1 x.2.1, firstScoreAt tests x.1 x.2.2)) := by
  unfold scoresJoin
  exact flatMap_singleton_eq_map _ _ _ (fun x hx => scores_inner_singleton tests hnd x hx)

/-- Claim C7: under per-user distinct test dates, the effectiveness
extractor's single row counts exactly the eligible users (those whose
first and last test dates are at least 30 days apart), counts as
improved exactly those whose last anxiety score is strictly below their
first, and, for a non-empty cohort, reports improved/total × 100
rounded to one decimal. -/
theorem efectividad_cohort_correct (tests : List TestRow)
    (hnd : ∀ u ∈ userIds tests, ((userTestRows tests u).map (fun t => t.fecha)).Nodup) :
    efectividadQuery tests =
      [⟨some ((userTestsCTE tests).length : Int),
        if (userTestsCTE tests).length = 0 then none
        else some ((((userTestsCTE tests).filter (improvedUser tests)).length : Int)),
        if (userTestsCTE tests).length = 0 then none
        else some (mround1
          (((((userTestsCTE tests).filter (improvedUser tests)).length : Int) : ℚ) /
            (((userTestsCTE tests).length : Int) : ℚ) * 100))⟩] ∧
    (∀ u : Nat, (∃ pf uf : Int, (u, pf, uf) ∈ userTestsCTE tests) ↔
      (u ∈ userIds tests ∧ eligibleSpan tests u = true)) := by
  have hs := scoresJoin_eq_map tests hnd
  have hlen : (scoresJoin tests).length = (userTestsCTE tests).length := by
    rw [hs, List.length_map]
  have hcount : countImproved (scoresJoin tests) =
      ((userTestsCTE tests).filter (improvedUser tests)).length := by
    unfold countImproved
    rw [hs, length_filter_map_eq]
    rfl
  constructor
  · unfold efectividadQuery
    simp only [hlen, hcount]
  · intro u
    constructor
    · rintro ⟨pf, uf, hmem⟩
      obtain ⟨hu, hmin, hmax, h30⟩ := mem_userTestsCTE tests (u, pf, uf) hmem
      refine ⟨hu, ?_⟩
      unfold eligibleSpan
      rw [hmin, hmax]
      simpa using h30
    · rintro ⟨hu, hel⟩
      unfold eligibleSpan at hel
      rcases hmin : ((userTestRows tests u).map (fun t => t.fecha)).min? with _ | pf
      · rw [hmin] at hel
        simp at hel
      rcases hmax : ((userTestRows tests u).map (fun t => t.fecha)).max? with _ | uf
      · rw [hmin, hmax] at hel
        simp at hel
      rw [hmin, hmax] at hel
      have h30 : 30 ≤ uf - pf := by simpa using hel
      refine ⟨pf, uf, ?_⟩
      unfold userTestsCTE
      rw [List.mem_filterMap]
      refine ⟨u, hu, ?_⟩
      rw [hmin, hmax]
      simp [h30]

/-- Witness for claim C7 at scenario B's store: one user, two tests 40
days apart with decreasing anxiety score, giving total 1, improved 1,
percentage 100.0. -/
theorem efectividad_cohort_correct_witness :
    efectividadQuery scenarioBTests = [⟨some 1, some 1, some 100⟩] := by
  have h := (efectividad_cohort_correct scenarioBTests (by decide)).1
  have h1 : (userTestsCTE scenarioBTests).length = 1 := by decide
  have h2 : ((userTestsCTE scenarioBTests).filter (improvedUser scenarioBTests)).length = 1 := by
    decide
  have hm : mround1 100 = 100 := by
    unfold mround1 qfloor
    rw [if_pos (by norm_num)]
    have hf : ⌊(100 : ℚ) * 10 + 1 / 2⌋ = 1000 := by
      rw [Int.floor_eq_iff]
      norm_num
    rw [hf]
    norm_num
  rw [h, h1, h2]
  norm_num [hm]
